import Mathlib

/-!
Verification of the transactional-email dispatch layer (`server/mailer.js`).

The JavaScript source is shallowly embedded: process environment access is a
record of optional string variables, the nodemailer transport and the template
renderers are uninterpreted (their construction arguments are captured as
data), asynchronous effects are tracked in an explicit effect record, and
exceptions are `Except` values.
-/

set_option autoImplicit false

namespace Mailer

/-- Environment variables read by the mailer module. A variable that is not
set in the process environment is `none`; a set variable carries its string
value (possibly empty). -/
structure Env where
  SMTP_HOST : Option String
  SMTP_PORT : Option String
  SMTP_SECURE : Option String
  SMTP_USERNAME : Option String
  SMTP_PASSWORD : Option String
  SMTP_TLS_CIPHERS : Option String
  SMTP_FROM_EMAIL : Option String
  SMTP_REPLY_EMAIL : Option String
  NODE_ENV : Option String
  SENTRY_DSN : Option String
  deriving DecidableEq

/-- JavaScript truthiness of an environment variable: an unset variable
(`undefined`) and the empty string are falsy, every other string is truthy. -/
def truthy : Option String → Bool
  | none => false
  | some s => s ≠ ""

/-- Embeds the module-level constant
`useTestEmailService = process.env.NODE_ENV === "development" && !process.env.SMTP_USERNAME`. -/
def Env.useTestEmailService (env : Env) : Bool :=
  env.NODE_ENV == some "development" && !truthy env.SMTP_USERNAME

/-- A JavaScript exception value, identified by its message. Thrown errors are
propagated as `Except.error` values of this type. -/
structure JsError where
  message : String
  deriving DecidableEq

/-- Result of `nodemailer.createTestAccount()` on success: the credentials of
the disposable ethereal.email mailbox. -/
structure TestAccount where
  user : String
  pass : String
  deriving DecidableEq

/-- Resolved value of `transporter.sendMail(...)` on success. The only use the
mailer makes of it is `nodemailer.getTestMessageUrl(info)`, embedded here as
the `messageUrl` field. -/
structure SendInfo where
  messageUrl : String
  deriving DecidableEq

/-- The `auth` object of an SMTP transport configuration. -/
structure SmtpAuth where
  user : Option String
  pass : Option String
  deriving DecidableEq

/-- The `tls` object of an SMTP transport configuration. -/
structure TlsOptions where
  ciphers : Option String
  deriving DecidableEq

/-- The `port` field of a transport configuration: either the raw value of
`process.env.SMTP_PORT` (a string or `undefined`) or the numeric literal
`587` used for the test transport. -/
inductive PortValue where
  | fromEnv (value : Option String)
  | literal (n : Nat)
  deriving DecidableEq

/-- The `smtpConfig` object handed to `nodemailer.createTransport`. -/
structure SmtpConfig where
  host : Option String
  port : PortValue
  secure : Bool
  auth : Option SmtpAuth
  tls : Option TlsOptions
  deriving DecidableEq

/-- A constructed transport. `nodemailer.createTransport` is uninterpreted:
the transport is identified by the configuration it was built from. -/
structure Transporter where
  config : SmtpConfig
  deriving DecidableEq

/-- Embeds the `smtpConfig` built in `loadTransport` when `SMTP_HOST` is
truthy: `secure` uses the explicit `SMTP_SECURE === "true"` comparison when
the variable is present (the `"SMTP_SECURE" in process.env` check) and
otherwise defaults to `NODE_ENV === "production"`; `auth` is assigned only
when `SMTP_USERNAME` is truthy; `tls` is present exactly when
`SMTP_TLS_CIPHERS` is present. -/
def smtpConfigFromEnv (env : Env) : SmtpConfig :=
  { host := env.SMTP_HOST
    port := PortValue.fromEnv env.SMTP_PORT
    secure :=
      if env.SMTP_SECURE.isSome then env.SMTP_SECURE == some "true"
      else env.NODE_ENV == some "production"
    auth :=
      if truthy env.SMTP_USERNAME then
        some { user := env.SMTP_USERNAME, pass := env.SMTP_PASSWORD }
      else none
    tls :=
      if env.SMTP_TLS_CIPHERS.isSome then some { ciphers := env.SMTP_TLS_CIPHERS }
      else none }

/-- Embeds the `smtpConfig` built for the ethereal.email test account. -/
def etherealSmtpConfig (acc : TestAccount) : SmtpConfig :=
  { host := some "smtp.ethereal.email"
    port := PortValue.literal 587
    secure := false
    auth := some { user := some acc.user, pass := some acc.pass }
    tls := none }

/-- Embeds `Mailer.loadTransport`. The external asynchronous call
`nodemailer.createTestAccount()` is passed in as its outcome
(`createTestAccount`). The result is the final value of `this.transporter`
together with the debug-log lines emitted; the `try`/`catch` around the test
account provisioning is embedded by the `Except` match, so the function
returns normally on either outcome. -/
def loadTransport (env : Env) (createTestAccount : Except JsError TestAccount) :
    Option Transporter × List String :=
  if truthy env.SMTP_HOST then
    (some { config := smtpConfigFromEnv env }, [])
  else if env.useTestEmailService then
    match createTestAccount with
    | Except.ok acc =>
        (some { config := etherealSmtpConfig acc },
         ["SMTP_USERNAME not provided, generating test account…"])
    | Except.error err =>
        (none,
         ["SMTP_USERNAME not provided, generating test account…",
          "Could not generate test account: " ++ err.message])
  else
    (none, [])

/-- Options bag of `Mailer.welcome`: `{ to, teamUrl }`. -/
structure WelcomeOpts where
  «to» : String
  teamUrl : String
  deriving DecidableEq

/-- Options bag of `Mailer.exportSuccess`: `{ to, id, teamUrl }`. -/
structure ExportSuccessOpts where
  «to» : String
  id : String
  teamUrl : String
  deriving DecidableEq

/-- Options bag of `Mailer.exportFailure`: `{ to, teamUrl }`. -/
structure ExportFailureOpts where
  «to» : String
  teamUrl : String
  deriving DecidableEq

/-- Options bag of `Mailer.invite`. The imported `InviteEmail` props type is
not under `src/`; the fields embedded are those the mailer reads
(`actorName`, `teamName`) together with `to`. -/
structure InviteOpts where
  «to» : String
  actorName : String
  teamName : String
  deriving DecidableEq

/-- Options bag of `Mailer.signin`: `{ to, token, teamUrl }`. -/
structure SigninOpts where
  «to» : String
  token : String
  teamUrl : String
  deriving DecidableEq

/-- The `document` object read by `Mailer.documentNotification` (only its
`title` field is used by the mailer). -/
structure DocumentInfo where
  title : String
  deriving DecidableEq

/-- The `actor` object read by the notification dispatchers (only its `name`
field is used by the mailer). -/
structure ActorInfo where
  name : String
  deriving DecidableEq

/-- The `collection` object read by `Mailer.collectionNotification` (only its
`name` field is used by the mailer). -/
structure CollectionInfo where
  name : String
  deriving DecidableEq

/-- Options bag of `Mailer.documentNotification`. The imported props type is
not under `src/`; the fields embedded are those the mailer reads. -/
structure DocumentNotificationOpts where
  «to» : String
  document : DocumentInfo
  actor : ActorInfo
  eventName : String
  deriving DecidableEq

/-- Options bag of `Mailer.collectionNotification`. The imported props type is
not under `src/`; the fields embedded are those the mailer reads. -/
structure CollectionNotificationOpts where
  «to» : String
  collection : CollectionInfo
  actor : ActorInfo
  eventName : String
  deriving DecidableEq

/-- The plain-text body of a message. The text renderers are imported from
the email template modules, which are not under `src/`; they are embedded as
uninterpreted symbols capturing the function applied and its argument. -/
inductive TextBody where
  | welcomeEmailText (opts : WelcomeOpts)
  | exportEmailSuccessText
  | exportEmailFailureText
  | inviteEmailText (opts : InviteOpts)
  | signinEmailText (opts : SigninOpts)
  | documentNotificationEmailText (opts : DocumentNotificationOpts)
  | collectionNotificationEmailText (opts : CollectionNotificationOpts)
  deriving DecidableEq

/-- A React element handed to `sendMail` as `data.html`. The JSX template
components are opaque render functions; an element is embedded as the
component tag applied to the props the dispatcher passes. -/
inductive ReactNode where
  | WelcomeEmail (opts : WelcomeOpts)
  | ExportSuccessEmail (id : String) (teamUrl : String)
  | ExportFailureEmail (teamUrl : String)
  | InviteEmail (opts : InviteOpts)
  | SigninEmail (opts : SigninOpts)
  | DocumentNotificationEmail (opts : DocumentNotificationOpts)
  | CollectionNotificationEmail (opts : CollectionNotificationOpts)
  deriving DecidableEq

/-- Embeds the `EmailSendOptions` type handed to `sendMail`. The unused
`properties` field of the source type is omitted. -/
structure EmailSendOptions where
  «to» : String
  title : String
  previewText : Option String
  text : TextBody
  html : ReactNode
  headCSS : Option String
  deriving DecidableEq

/-- Modelled from the spec: the shared base stylesheet (`baseStyles`) is
exported by the email layout component, which is not under `src/`; its
contents are opaque to the dispatch layer, so it is embedded as an
uninterpreted string constant. -/
def baseStyles : String := "<baseStyles>"

/-- A call to `Oy.renderTemplate`. The renderer is an external collaborator;
the rendered HTML document is identified by the arguments of the call. -/
structure RenderCall where
  node : ReactNode
  title : String
  headCSS : String
  previewText : Option String
  deriving DecidableEq

/-- Embeds the `Oy.renderTemplate(data.html, {...})` call made by `sendMail`:
the head CSS is `[baseStyles, data.headCSS].join(" ")`, where JavaScript
`Array.join` renders an `undefined` element as the empty string. -/
def mkRenderCall (data : EmailSendOptions) : RenderCall :=
  { node := data.html
    title := data.title
    headCSS := String.intercalate " " [baseStyles, data.headCSS.getD ""]
    previewText := data.previewText }

/-- The envelope handed to `transporter.sendMail`. -/
structure Envelope where
  «from» : Option String
  replyTo : Option String
  «to» : String
  subject : String
  html : RenderCall
  text : TextBody
  deriving DecidableEq

/-- Embeds the envelope object built inside `sendMail`: `replyTo` is the
JavaScript expression `process.env.SMTP_REPLY_EMAIL || process.env.SMTP_FROM_EMAIL`,
which yields the left operand when it is truthy and the right one otherwise. -/
def mkEnvelope (env : Env) (data : EmailSendOptions) : Envelope :=
  { «from» := env.SMTP_FROM_EMAIL
    replyTo := if truthy env.SMTP_REPLY_EMAIL then env.SMTP_REPLY_EMAIL else env.SMTP_FROM_EMAIL
    «to» := data.«to»
    subject := data.title
    html := mkRenderCall data
    text := data.text }

/-- Observable effects of one `sendMail` invocation: template render calls,
transport send calls, exceptions reported to Sentry, and debug-log lines. -/
structure SendEffects where
  renders : List RenderCall
  sent : List Envelope
  reported : List JsError
  logs : List String
  deriving DecidableEq

/-- Embeds `Mailer.sendMail`. The transport send is the external behaviour
parameter `transportSend` (the outcome of `transporter.sendMail` on a given
envelope). The returned `Except` is the settlement of the promise `sendMail`
returns: when no transporter is set the function body is skipped and the
promise resolves; on transport failure the error is reported to Sentry only
when `SENTRY_DSN` is truthy and is then re-thrown. -/
def sendMail (env : Env) (transporter : Option Transporter)
    (transportSend : Envelope → Except JsError SendInfo)
    (data : EmailSendOptions) : Except JsError Unit × SendEffects :=
  match transporter with
  | none => (Except.ok (), { renders := [], sent := [], reported := [], logs := [] })
  | some _ =>
      let rendered := mkRenderCall data
      let logSending := "Sending email \"" ++ data.title ++ "\" to " ++ data.«to»
      let envelope := mkEnvelope env data
      match transportSend envelope with
      | Except.ok info =>
          (Except.ok (),
           { renders := [rendered]
             sent := [envelope]
             reported := []
             logs := [logSending] ++
               (if env.useTestEmailService then ["Email Preview URL: " ++ info.messageUrl] else []) })
      | Except.error err =>
          (Except.error err,
           { renders := [rendered]
             sent := [envelope]
             reported := if truthy env.SENTRY_DSN then [err] else []
             logs := [logSending] })

/-- The US-ASCII apostrophe character, kept out of string literals. -/
def apostrophe : String := String.singleton (Char.ofNat 39)

/-- The `EmailSendOptions` object built by `Mailer.welcome`. -/
def welcomeData (opts : WelcomeOpts) : EmailSendOptions :=
  { «to» := opts.«to»
    title := "Welcome to Outline"
    previewText := some "Outline is a place for your team to build and share knowledge."
    html := ReactNode.WelcomeEmail opts
    text := TextBody.welcomeEmailText opts
    headCSS := none }

/-- The `EmailSendOptions` object built by `Mailer.exportSuccess`. Its
preview text reads: Here(APOSTROPHE)s your request data export from Outline. -/
def exportSuccessData (opts : ExportSuccessOpts) : EmailSendOptions :=
  { «to» := opts.«to»
    title := "Your requested export"
    previewText := some ("Here" ++ apostrophe ++ "s your request data export from Outline")
    html := ReactNode.ExportSuccessEmail opts.id opts.teamUrl
    text := TextBody.exportEmailSuccessText
    headCSS := none }

/-- The `EmailSendOptions` object built by `Mailer.exportFailure`. -/
def exportFailureData (opts : ExportFailureOpts) : EmailSendOptions :=
  { «to» := opts.«to»
    title := "Your requested export"
    previewText := some "Sorry, your requested data export has failed"
    html := ReactNode.ExportFailureEmail opts.teamUrl
    text := TextBody.exportEmailFailureText
    headCSS := none }

/-- The `EmailSendOptions` object built by `Mailer.invite`. The title
interpolates the template with the typographic apostrophe U+2019 that appears
in the source string. -/
def inviteData (opts : InviteOpts) : EmailSendOptions :=
  { «to» := opts.«to»
    title := opts.actorName ++ " invited you to join " ++ opts.teamName ++ "’s knowledge base"
    previewText := some "Outline is a place for your team to build and share knowledge."
    html := ReactNode.InviteEmail opts
    text := TextBody.inviteEmailText opts
    headCSS := none }

/-- The `EmailSendOptions` object built by `Mailer.signin`. -/
def signinData (opts : SigninOpts) : EmailSendOptions :=
  { «to» := opts.«to»
    title := "Magic signin link"
    previewText := some "Here’s your link to signin to Outline."
    html := ReactNode.SigninEmail opts
    text := TextBody.signinEmailText opts
    headCSS := none }

/-- The `EmailSendOptions` object built by `Mailer.documentNotification`. The
title wraps the document title in typographic double quotes U+201C/U+201D as
in the source string. -/
def documentNotificationData (opts : DocumentNotificationOpts) : EmailSendOptions :=
  { «to» := opts.«to»
    title := "“" ++ opts.document.title ++ "” " ++ opts.eventName
    previewText := some (opts.actor.name ++ " " ++ opts.eventName ++ " a new document")
    html := ReactNode.DocumentNotificationEmail opts
    text := TextBody.documentNotificationEmailText opts
    headCSS := none }

/-- The `EmailSendOptions` object built by `Mailer.collectionNotification`. -/
def collectionNotificationData (opts : CollectionNotificationOpts) : EmailSendOptions :=
  { «to» := opts.«to»
    title := "“" ++ opts.collection.name ++ "” " ++ opts.eventName
    previewText := some (opts.actor.name ++ " " ++ opts.eventName ++ " a collection")
    html := ReactNode.CollectionNotificationEmail opts
    text := TextBody.collectionNotificationEmailText opts
    headCSS := none }

/-- Embeds `Mailer.welcome`. The source invokes `this.sendMail(...)` without
`await`, so the promise the method returns settles successfully regardless of
the fired send; the fired send and its effects are the second component. -/
def welcome (env : Env) (transporter : Option Transporter)
    (transportSend : Envelope → Except JsError SendInfo) (opts : WelcomeOpts) :
    Except JsError Unit × SendEffects :=
  let fired := sendMail env transporter transportSend (welcomeData opts)
  (Except.ok (), fired.2)

/-- Embeds `Mailer.exportSuccess` (un-awaited `sendMail`, as in `welcome`). -/
def exportSuccess (env : Env) (transporter : Option Transporter)
    (transportSend : Envelope → Except JsError SendInfo) (opts : ExportSuccessOpts) :
    Except JsError Unit × SendEffects :=
  let fired := sendMail env transporter transportSend (exportSuccessData opts)
  (Except.ok (), fired.2)

/-- Embeds `Mailer.exportFailure` (un-awaited `sendMail`, as in `welcome`). -/
def exportFailure (env : Env) (transporter : Option Transporter)
    (transportSend : Envelope → Except JsError SendInfo) (opts : ExportFailureOpts) :
    Except JsError Unit × SendEffects :=
  let fired := sendMail env transporter transportSend (exportFailureData opts)
  (Except.ok (), fired.2)

/-- Embeds `Mailer.invite` (un-awaited `sendMail`, as in `welcome`). -/
def invite (env : Env) (transporter : Option Transporter)
    (transportSend : Envelope → Except JsError SendInfo) (opts : InviteOpts) :
    Except JsError Unit × SendEffects :=
  let fired := sendMail env transporter transportSend (inviteData opts)
  (Except.ok (), fired.2)

/-- Embeds `Mailer.signin` (un-awaited `sendMail`, as in `welcome`). -/
def signin (env : Env) (transporter : Option Transporter)
    (transportSend : Envelope → Except JsError SendInfo) (opts : SigninOpts) :
    Except JsError Unit × SendEffects :=
  let fired := sendMail env transporter transportSend (signinData opts)
  (Except.ok (), fired.2)

/-- Embeds `Mailer.documentNotification` (un-awaited `sendMail`). -/
def documentNotification (env : Env) (transporter : Option Transporter)
    (transportSend : Envelope → Except JsError SendInfo) (opts : DocumentNotificationOpts) :
    Except JsError Unit × SendEffects :=
  let fired := sendMail env transporter transportSend (documentNotificationData opts)
  (Except.ok (), fired.2)

/-- Embeds `Mailer.collectionNotification` (un-awaited `sendMail`). -/
def collectionNotification (env : Env) (transporter : Option Transporter)
    (transportSend : Envelope → Except JsError SendInfo) (opts : CollectionNotificationOpts) :
    Except JsError Unit × SendEffects :=
  let fired := sendMail env transporter transportSend (collectionNotificationData opts)
  (Except.ok (), fired.2)

/-- The `backoff` object of the queue options. -/
structure BackoffOptions where
  type : String
  delay : Nat
  deriving DecidableEq

/-- The job options object passed to `emailsQueue.add`. -/
structure JobOptions where
  attempts : Nat
  removeOnComplete : Bool
  backoff : BackoffOptions
  deriving DecidableEq

/-- The job payload `{ type, opts }` passed to `emailsQueue.add`. At runtime
the Flow annotation `EmailTypes` is erased, so `type` is an arbitrary string,
and `opts` is an arbitrary object. -/
structure QueueJob (α : Type) where
  type : String
  opts : α
  deriving DecidableEq

/-- The runtime strings of the Flow union `EmailTypes`
(`"welcome" | "export" | "invite" | "signin"`). -/
def knownEmailTypes : List String := ["welcome", "export", "invite", "signin"]

/-- Embeds `Mailer.sendTemplate`: the list of `emailsQueue.add` calls it
performs, each a payload together with its queue options. The body
unconditionally enqueues the request with `attempts: 5`,
`removeOnComplete: true` and exponential backoff with a 60000 ms delay. -/
def sendTemplate {α : Type} (type : String) (opts : α) : List (QueueJob α × JobOptions) :=
  [({ type := type, opts := opts },
    { attempts := 5
      removeOnComplete := true
      backoff := { type := "exponential", delay := 60 * 1000 } })]

/-- Modelled from the spec: the transport configuration the Transport
Resolver is described to build when an explicit SMTP host is configured,
following the spec sentence word by word — host and port are taken from the
environment, secure defaults to true only in production and otherwise comes
from the explicit override, auth (username and password) is attached if a
username is present, and the TLS cipher override is attached when
configured. -/
def specTransportConfig (env : Env) : SmtpConfig :=
  { host := env.SMTP_HOST
    port := PortValue.fromEnv env.SMTP_PORT
    secure :=
      match env.SMTP_SECURE with
      | none => env.NODE_ENV == some "production"
      | some override => override == "true"
    auth :=
      match truthy env.SMTP_USERNAME with
      | true => some { user := env.SMTP_USERNAME, pass := env.SMTP_PASSWORD }
      | false => none
    tls :=
      match env.SMTP_TLS_CIPHERS with
      | some _ => some { ciphers := env.SMTP_TLS_CIPHERS }
      | none => none }

/-! Concrete fixtures used to instantiate theorems with hypotheses. -/

/-- A production environment with an explicit SMTP host, credentials, a
from-address and no Sentry DSN. -/
def envSmtpProd : Env :=
  { SMTP_HOST := some "smtp.example.com"
    SMTP_PORT := some "465"
    SMTP_SECURE := none
    SMTP_USERNAME := some "mailer"
    SMTP_PASSWORD := some "hunter2"
    SMTP_TLS_CIPHERS := none
    SMTP_FROM_EMAIL := some "outline@example.com"
    SMTP_REPLY_EMAIL := none
    NODE_ENV := some "production"
    SENTRY_DSN := none }

/-- The production environment with a Sentry DSN configured. -/
def envSentry : Env :=
  { envSmtpProd with SENTRY_DSN := some "https://key@sentry.example/1" }

/-- A development environment with no SMTP host and no credentials. -/
def envDevNoCreds : Env :=
  { SMTP_HOST := none
    SMTP_PORT := none
    SMTP_SECURE := none
    SMTP_USERNAME := none
    SMTP_PASSWORD := none
    SMTP_TLS_CIPHERS := none
    SMTP_FROM_EMAIL := none
    SMTP_REPLY_EMAIL := none
    NODE_ENV := some "development"
    SENTRY_DSN := none }

/-- The transport resolved from `envSmtpProd`. -/
def transporter0 : Transporter := { config := smtpConfigFromEnv envSmtpProd }

/-- A transport send behaviour that always raises `boom`. -/
def failBoom : Envelope → Except JsError SendInfo :=
  fun _ => Except.error { message := "boom" }

/-- Sample options for `welcome`. -/
def welcomeOpts0 : WelcomeOpts := { «to» := "a@x.com", teamUrl := "https://acme.example" }

/-- Sample options for `exportSuccess`. -/
def exportSuccessOpts0 : ExportSuccessOpts :=
  { «to» := "a@x.com", id := "exp-42", teamUrl := "https://acme.example" }

/-- Sample options for `exportFailure`. -/
def exportFailureOpts0 : ExportFailureOpts :=
  { «to» := "a@x.com", teamUrl := "https://acme.example" }

/-- Sample options for `invite`, matching the concrete scenario of the spec. -/
def inviteOpts0 : InviteOpts := { «to» := "a@x.com", actorName := "Jane", teamName := "Acme" }

/-- Sample options for `signin`. -/
def signinOpts0 : SigninOpts :=
  { «to» := "a@x.com", token := "T1", teamUrl := "https://acme.example" }

/-- Sample options for `documentNotification`. -/
def documentNotificationOpts0 : DocumentNotificationOpts :=
  { «to» := "a@x.com", document := { title := "Roadmap" }, actor := { name := "Jane" },
    eventName := "published" }

/-- Sample options for `collectionNotification`. -/
def collectionNotificationOpts0 : CollectionNotificationOpts :=
  { «to» := "a@x.com", collection := { name := "Engineering" }, actor := { name := "Jane" },
    eventName := "created" }

/-! Theorems. -/

/-- Helper: `Array.join` on a two-element array, embedded as
`String.intercalate`, is plain concatenation with the separator. -/
theorem intercalate_pair (a b : String) : String.intercalate " " [a, b] = a ++ " " ++ b := rfl

/-- Helper: the configuration the source builds for an explicit SMTP host
coincides with the configuration described by the spec sentence. -/
theorem smtpConfigFromEnv_eq_spec (env : Env) : smtpConfigFromEnv env = specTransportConfig env := by
  unfold smtpConfigFromEnv specTransportConfig
  cases hsec : env.SMTP_SECURE <;>
    cases huser : truthy env.SMTP_USERNAME <;>
      cases htls : env.SMTP_TLS_CIPHERS <;>
        simp [hsec, huser, htls]

/-- C1: when no transport has been resolved, `sendMail` returns immediately
with a resolved promise, renders nothing, contacts no transport, reports
nothing and logs nothing. -/
theorem sendMail_no_transport_silent_success (env : Env)
    (transportSend : Envelope → Except JsError SendInfo) (data : EmailSendOptions) :
    (sendMail env none transportSend data).1 = Except.ok ()
    ∧ (sendMail env none transportSend data).2.sent = []
    ∧ (sendMail env none transportSend data).2.renders = []
    ∧ (sendMail env none transportSend data).2.reported = []
    ∧ (sendMail env none transportSend data).2.logs = [] :=
  ⟨rfl, rfl, rfl, rfl, rfl⟩

/-- C2 counterexample: with a transport resolved but no `SENTRY_DSN`
configured, a failing send propagates the failure yet reports nothing to the
error sink, so the claim that every delivery failure is reported exactly once
is false. -/
theorem sendMail_failure_unreported_without_sentry :
    (sendMail envSmtpProd (some transporter0) failBoom (welcomeData welcomeOpts0)).1
      = Except.error { message := "boom" }
    ∧ (sendMail envSmtpProd (some transporter0) failBoom (welcomeData welcomeOpts0)).2.reported
      = [] :=
  ⟨rfl, rfl⟩

/-- C2 amended: when the resolved transport raises, `sendMail` propagates the
same failure to its caller, and reports it to the error sink exactly once
when `SENTRY_DSN` is configured and not at all otherwise. -/
theorem sendMail_failure_propagated_and_reported (env : Env) (t : Transporter)
    (transportSend : Envelope → Except JsError SendInfo) (data : EmailSendOptions)
    (e : JsError) (h : transportSend (mkEnvelope env data) = Except.error e) :
    (sendMail env (some t) transportSend data).1 = Except.error e
    ∧ (sendMail env (some t) transportSend data).2.reported
        = (if truthy env.SENTRY_DSN then [e] else []) := by
  constructor <;> simp [sendMail, h]

/-- C2 amended, witness: with Sentry configured and an always-failing
transport, the concrete send propagates the failure and reports it once. -/
theorem sendMail_failure_propagated_and_reported_witness :
    (sendMail envSentry (some transporter0) failBoom (welcomeData welcomeOpts0)).1
      = Except.error { message := "boom" }
    ∧ (sendMail envSentry (some transporter0) failBoom (welcomeData welcomeOpts0)).2.reported
      = [{ message := "boom" }] := by
  have h := sendMail_failure_propagated_and_reported envSentry transporter0 failBoom
    (welcomeData welcomeOpts0) { message := "boom" } rfl
  simpa using h

/-- C7: whenever a transport is resolved, `sendMail` hands the transport
exactly one envelope, whose reply-to is the configured reply-to address when
that is set and the configured from-address otherwise, and whose from, to,
subject, html and text fields are passed through from configuration and the
message. -/
theorem sendMail_envelope_fields (env : Env) (t : Transporter)
    (transportSend : Envelope → Except JsError SendInfo) (data : EmailSendOptions) :
    (sendMail env (some t) transportSend data).2.sent = [mkEnvelope env data]
    ∧ (mkEnvelope env data).replyTo
        = (if truthy env.SMTP_REPLY_EMAIL then env.SMTP_REPLY_EMAIL else env.SMTP_FROM_EMAIL)
    ∧ (mkEnvelope env data).«from» = env.SMTP_FROM_EMAIL
    ∧ (mkEnvelope env data).«to» = data.«to»
    ∧ (mkEnvelope env data).subject = data.title
    ∧ (mkEnvelope env data).html = mkRenderCall data
    ∧ (mkEnvelope env data).text = data.text := by
  refine ⟨?_, rfl, rfl, rfl, rfl, rfl, rfl⟩
  cases h : transportSend (mkEnvelope env data) <;> simp [sendMail, h]

/-- C10: the template render happens exactly on the branch where a
transporter exists — no transport means no render call at all — and the one
render call injects the base stylesheet concatenated with the per-message
style override together with the preview-text metadata. -/
theorem sendMail_render_only_with_transporter (env : Env) (transporter : Option Transporter)
    (transportSend : Envelope → Except JsError SendInfo) (data : EmailSendOptions) :
    (sendMail env transporter transportSend data).2.renders
      = (if transporter.isSome then [mkRenderCall data] else [])
    ∧ (mkRenderCall data).headCSS = baseStyles ++ " " ++ data.headCSS.getD ""
    ∧ (mkRenderCall data).previewText = data.previewText := by
  refine ⟨?_, rfl, rfl⟩
  cases transporter with
  | none => rfl
  | some t => cases h : transportSend (mkEnvelope env data) <;> simp [sendMail, h]

/-- C3: for every type and opts, `sendTemplate` performs exactly one queue
add, whose payload is the request and whose options are 5 attempts, removal
on completion, and exponential backoff from a 60000 ms base delay. -/
theorem sendTemplate_retry_policy (α : Type) (type : String) (opts : α) :
    (sendTemplate type opts).map Prod.fst = [{ type := type, opts := opts }]
    ∧ (sendTemplate type opts).map Prod.snd
        = [{ attempts := 5
             removeOnComplete := true
             backoff := { type := "exponential", delay := 60000 } }] :=
  ⟨rfl, rfl⟩

/-- C4 counterexample: the subject produced for the concrete invite scenario
is not the claimed string with the US-ASCII apostrophe; the source template
uses the typographic apostrophe U+2019 instead. -/
theorem invite_subject_not_ascii_apostrophe :
    (inviteData inviteOpts0).title
      ≠ "Jane invited you to join Acme" ++ apostrophe ++ "s knowledge base" := by
  decide

/-- C4 amended: the invite dispatcher interpolates the payload into the
subject pattern, and the concrete scenario yields the subject
Jane invited you to join Acme’s knowledge base (typographic apostrophe
U+2019). -/
theorem invite_subject_interpolated :
    (inviteData inviteOpts0).title = "Jane invited you to join Acme’s knowledge base" := rfl

/-- C5 counterexample: a request whose type is not among the known
notification types is nevertheless enqueued by `sendTemplate` — the enqueue
happens unconditionally, refuting the claim that such a request is never
enqueued as an unresolvable job. -/
theorem unknown_type_still_enqueued :
    "bogus" ∉ knownEmailTypes
    ∧ sendTemplate "bogus" () ≠ []
    ∧ (sendTemplate "bogus" ()).map Prod.fst = [{ type := "bogus", opts := () }] := by
  refine ⟨by decide, by decide, rfl⟩

/-- C5 amended: `sendTemplate` performs no runtime validation of the type —
every request, known-typed or not, is enqueued exactly once with its type
passed through unchanged; unknown types are excluded only by the static Flow
annotation, and any loud failure can occur only later at processing time. -/
theorem sendTemplate_no_type_validation (α : Type) (type : String) (opts : α) :
    (sendTemplate type opts).length = 1
    ∧ (sendTemplate type opts).map (fun job => job.1.type) = [type] :=
  ⟨rfl, rfl⟩

/-- C6: with an explicit SMTP host configured, `loadTransport` synchronously
resolves the transport built from exactly the configuration the spec
describes: secure defaults to production-mode when no explicit override is
present and follows the override otherwise, auth is attached if and only if
a username is configured, and the TLS cipher override is attached exactly
when configured. -/
theorem loadTransport_explicit_host (env : Env) (cta : Except JsError TestAccount)
    (h : truthy env.SMTP_HOST = true) :
    loadTransport env cta = (some { config := specTransportConfig env }, [])
    ∧ (smtpConfigFromEnv env).auth.isSome = truthy env.SMTP_USERNAME
    ∧ (smtpConfigFromEnv env).tls.isSome = env.SMTP_TLS_CIPHERS.isSome := by
  refine ⟨?_, ?_, ?_⟩
  · simp [loadTransport, h, smtpConfigFromEnv_eq_spec]
  · unfold smtpConfigFromEnv
    cases truthy env.SMTP_USERNAME <;> simp
  · unfold smtpConfigFromEnv
    cases env.SMTP_TLS_CIPHERS <;> simp

/-- C6 witness: the production fixture has a truthy SMTP host, and the
resolver yields the spec-described transport for it. -/
theorem loadTransport_explicit_host_witness :
    truthy envSmtpProd.SMTP_HOST = true
    ∧ loadTransport envSmtpProd (Except.error { message := "unused" })
        = (some { config := specTransportConfig envSmtpProd }, [])
    ∧ (smtpConfigFromEnv envSmtpProd).auth.isSome = truthy envSmtpProd.SMTP_USERNAME
    ∧ (smtpConfigFromEnv envSmtpProd).tls.isSome = envSmtpProd.SMTP_TLS_CIPHERS.isSome := by
  have h := loadTransport_explicit_host envSmtpProd (Except.error { message := "unused" })
    (by decide)
  exact ⟨by decide, h.1, h.2.1, h.2.2⟩

/-- C8: in a development-like environment with no SMTP host and no
credentials, a failure of the test-mailbox provisioning call is caught:
`loadTransport` returns normally, leaves the transporter unset, and logs the
failure message. -/
theorem loadTransport_test_failure_nonfatal (env : Env) (err : JsError)
    (hHost : truthy env.SMTP_HOST = false)
    (hTest : env.useTestEmailService = true) :
    loadTransport env (Except.error err)
      = (none,
         ["SMTP_USERNAME not provided, generating test account…",
          "Could not generate test account: " ++ err.message]) := by
  simp [loadTransport, hHost, hTest]

/-- C8 witness: the development fixture satisfies both hypotheses, and a
concrete provisioning failure leaves the transporter unset with the failure
logged. -/
theorem loadTransport_test_failure_nonfatal_witness :
    truthy envDevNoCreds.SMTP_HOST = false
    ∧ envDevNoCreds.useTestEmailService = true
    ∧ loadTransport envDevNoCreds (Except.error { message := "network unreachable" })
        = (none,
           ["SMTP_USERNAME not provided, generating test account…",
            "Could not generate test account: network unreachable"]) := by
  have h := loadTransport_test_failure_nonfatal envDevNoCreds { message := "network unreachable" }
    (by decide) (by decide)
  exact ⟨by decide, by decide, h⟩

/-- C9: every per-type dispatcher method fires `sendMail` without awaiting
it, so even against a transport whose send always raises — making the
underlying `sendMail` promise reject — each dispatcher method still settles
successfully. -/
theorem dispatchers_resolve_despite_delivery_failure (env : Env) (t : Transporter)
    (transportSend : Envelope → Except JsError SendInfo) (e : JsError)
    (hfail : ∀ envl, transportSend envl = Except.error e) :
    (∀ opts : WelcomeOpts,
        (sendMail env (some t) transportSend (welcomeData opts)).1 = Except.error e
        ∧ (welcome env (some t) transportSend opts).1 = Except.ok ())
    ∧ (∀ opts : ExportSuccessOpts,
        (sendMail env (some t) transportSend (exportSuccessData opts)).1 = Except.error e
        ∧ (exportSuccess env (some t) transportSend opts).1 = Except.ok ())
    ∧ (∀ opts : ExportFailureOpts,
        (sendMail env (some t) transportSend (exportFailureData opts)).1 = Except.error e
        ∧ (exportFailure env (some t) transportSend opts).1 = Except.ok ())
    ∧ (∀ opts : InviteOpts,
        (sendMail env (some t) transportSend (inviteData opts)).1 = Except.error e
        ∧ (invite env (some t) transportSend opts).1 = Except.ok ())
    ∧ (∀ opts : SigninOpts,
        (sendMail env (some t) transportSend (signinData opts)).1 = Except.error e
        ∧ (signin env (some t) transportSend opts).1 = Except.ok ())
    ∧ (∀ opts : DocumentNotificationOpts,
        (sendMail env (some t) transportSend (documentNotificationData opts)).1 = Except.error e
        ∧ (documentNotification env (some t) transportSend opts).1 = Except.ok ())
    ∧ (∀ opts : CollectionNotificationOpts,
        (sendMail env (some t) transportSend (collectionNotificationData opts)).1 = Except.error e
        ∧ (collectionNotification env (some t) transportSend opts).1 = Except.ok ()) := by
  refine ⟨?_, ?_, ?_, ?_, ?_, ?_, ?_⟩ <;>
    intro opts <;>
      exact ⟨by simp [sendMail, hfail], rfl⟩

/-- C9 witness: against an always-failing transport, each of the seven
dispatcher methods settles successfully at concrete options even though the
underlying `sendMail` promise rejects. -/
theorem dispatchers_resolve_despite_delivery_failure_witness :
    (sendMail envSmtpProd (some transporter0) failBoom (welcomeData welcomeOpts0)).1
      = Except.error { message := "boom" }
    ∧ (welcome envSmtpProd (some transporter0) failBoom welcomeOpts0).1 = Except.ok ()
    ∧ (exportSuccess envSmtpProd (some transporter0) failBoom exportSuccessOpts0).1 = Except.ok ()
    ∧ (exportFailure envSmtpProd (some transporter0) failBoom exportFailureOpts0).1 = Except.ok ()
    ∧ (invite envSmtpProd (some transporter0) failBoom inviteOpts0).1 = Except.ok ()
    ∧ (signin envSmtpProd (some transporter0) failBoom signinOpts0).1 = Except.ok ()
    ∧ (documentNotification envSmtpProd (some transporter0) failBoom
        documentNotificationOpts0).1 = Except.ok ()
    ∧ (collectionNotification envSmtpProd (some transporter0) failBoom
        collectionNotificationOpts0).1 = Except.ok () := by
  have h := dispatchers_resolve_despite_delivery_failure envSmtpProd transporter0 failBoom
    { message := "boom" } (fun _ => rfl)
  exact ⟨(h.1 welcomeOpts0).1, (h.1 welcomeOpts0).2, (h.2.1 exportSuccessOpts0).2,
    (h.2.2.1 exportFailureOpts0).2, (h.2.2.2.1 inviteOpts0).2, (h.2.2.2.2.1 signinOpts0).2,
    (h.2.2.2.2.2.1 documentNotificationOpts0).2,
    (h.2.2.2.2.2.2 collectionNotificationOpts0).2⟩

end Mailer
